import Mathlib

/-!
Shallow embedding of the document-intake pipeline of the ai-edu-consultant
repository (backend.py, parse_uploaded_file.py), together with its chat
fallback (generate_response) and the spec-modelled profile merge.

External collaborators (libmagic content sniffing, pdfplumber, python-docx,
PIL/pytesseract OCR, the OpenAI chat call, json.loads) are modelled as an
oracle environment `Env`: each oracle returns `Except String _`, where
`.error e` models the Python call raising an exception whose `str` is `e`.
Python dictionaries produced by `json.loads` are modelled by `PyVal`.
-/

/-- Model of a Python value as produced by `json.loads` (plus `None`). -/
inductive PyVal where
  | pnone : PyVal
  | pbool : Bool → PyVal
  | pint : Int → PyVal
  | pstr : String → PyVal
  | plist : List PyVal → PyVal
  | pdict : List (String × PyVal) → PyVal

/-- Python truthiness test for a `PyVal` (`None`, `0`, `""`, `[]`, `\x7b\x7d` are falsy). -/
def pyFalsy : PyVal → Bool
  | .pnone => true
  | .pbool b => !b
  | .pint n => n == 0
  | .pstr s => s == ""
  | .plist xs => xs.isEmpty
  | .pdict kvs => kvs.isEmpty

/-- Python `v.get(k, d)`: defined on dicts, raises `AttributeError` otherwise. -/
def dictGet (v : PyVal) (k : String) (d : PyVal) : Except String PyVal :=
  match v with
  | .pdict kvs => .ok ((kvs.lookup k).getD d)
  | _ => .error "AttributeError: object has no attribute get"

/-- Python slicing `v[:n]`: defined on strings and lists, `TypeError` otherwise. -/
def pySlice (n : Nat) (v : PyVal) : Except String PyVal :=
  match v with
  | .pstr s => .ok (.pstr (s.take n))
  | .plist xs => .ok (.plist (xs.take n))
  | _ => .error "TypeError: object is not subscriptable"

/-- Python `x or d` for an optional string `x`: yields `d` when `x` is falsy,
i.e. both when `x` is `None` and when it is the empty string. -/
def pyOrStr (x : Option String) (d : String) : String :=
  match x with
  | some s => if s = "" then d else s
  | none => d

/-- One message of the structured-review request (backend.py `_generate_analysis`):
the system instruction plus the fields of the `user_payload` dict that is
JSON-serialized into the user message. -/
structure LlmReq where
  system : String
  document_type : String
  purpose : String
  extra_context : String
  text : String
  instructions : List String

/-- Oracle environment for the document pipeline: libmagic, pdfplumber page
texts (`None` for a page with no text layer), python-docx paragraph texts,
PIL+pytesseract OCR output, the OpenAI structured call (`.ok` carries the
`message.content`, which may be Python `None`), and `json.loads`
(`none` = parse failure). `.error e` models the library call raising. -/
structure Env where
  magic : List Nat → Except String String
  pdfPages : List Nat → Except String (List (Option String))
  docxParas : List Nat → Except String (List String)
  ocr : List Nat → Except String String
  llm : LlmReq → Except String (Option String)
  jsonParse : String → Option PyVal

/-- Model of Python `str.lower()` (ASCII case mapping, which covers every
string this code lowercases). -/
def pyLower (s : String) : String :=
  String.mk (s.data.map Char.toLower)

/-- The whitespace characters stripped by Python `str.strip()` (ASCII part). -/
def isSpaceChar (c : Char) : Bool :=
  c = ' ' || c = '\t' || c = '\n' || c = '\r' || c = '\x0b' || c = '\x0c'

/-- Model of Python `str.strip()`. -/
def pyStrip (s : String) : String :=
  String.mk (((s.data.dropWhile isSpaceChar).reverse.dropWhile isSpaceChar).reverse)

/-- Model of Python `str.rstrip()`. -/
def pyRStrip (s : String) : String :=
  String.mk ((s.data.reverse.dropWhile isSpaceChar).reverse)

/-- Model of Python `str.startswith(pre)`. -/
def pyStartsWith (s pre : String) : Bool :=
  pre.data.isPrefixOf s.data

/-- Model of `pathlib.Path(filename).suffix`: the extension (with dot) of the final
path component (the part after the last `/`, with trailing slashes dropped
first, as pathlib normalizes them away); empty when there is no dot, or the
dot is leading or trailing in that component. -/
def pathSuffix (filename : String) : String :=
  let base := filename.data.reverse.dropWhile (· = '/')
  let cs := (base.takeWhile (· ≠ '/')).reverse
  match cs.reverse.findIdx? (· = '.') with
  | none => ""
  | some k =>
    let i := cs.length - 1 - k
    if 0 < i ∧ i < cs.length - 1 then String.mk (cs.drop i) else ""

/-- The expression `Path(filename).suffix[1:].lower()` from backend.py `_detect_file_type`. -/
def extLower (filename : String) : String :=
  pyLower ((pathSuffix filename).drop 1)

/-- The `type_map` dict of backend.py `_detect_file_type`. -/
def typeMap : List (String × String) :=
  [("application/pdf", "pdf"),
   ("application/vnd.openxmlformats-officedocument.wordprocessingml.document", "docx"),
   ("application/msword", "doc"),
   ("image/jpeg", "jpg"),
   ("image/jpg", "jpg"),
   ("image/png", "png"),
   ("text/plain", "txt")]

/-- backend.py `_detect_file_type`: try libmagic and map the MIME through
`type_map`, defaulting to the lowercased filename extension (or `"unknown"`
when empty); on a raised exception fall back to the extension alone. -/
def detect_file_type (env : Env) (file_bytes : List Nat) (filename : String) : String :=
  match env.magic file_bytes with
  | .ok mime =>
    let ext := extLower filename
    (typeMap.lookup mime).getD (if ext = "" then "unknown" else ext)
  | .error _ =>
    let e := extLower filename
    if e = "" then "unknown" else e

/-- backend.py `_validate_file`: nonempty and at most 200 MiB. -/
def validate_file (file_bytes : List Nat) : Bool :=
  if file_bytes.isEmpty then false
  else if file_bytes.length > 200 * 1024 * 1024 then false
  else true

/-- backend.py `_is_supported`: membership of the file type in the
`supported_types` set for the lowercased document type (empty set default). -/
def is_supported (file_type : String) (doc_type : String) : Bool :=
  let s : List String :=
    if pyLower doc_type = "sop" then ["pdf", "docx", "jpg", "png"]
    else if pyLower doc_type = "cv" then ["pdf", "docx"]
    else if pyLower doc_type = "transcript" then ["pdf", "jpg", "png"]
    else []
  s.contains file_type

/-- The doc_type normalization at the top of backend.py `analyze_document`:
`(doc_type or "").strip().lower()`, then `resume` becomes `cv`. -/
def normDocType (doc_type : String) : String :=
  let d := pyLower (pyStrip doc_type)
  if d = "resume" then "cv" else d

/-- Whether a byte is a UTF-8 continuation byte (0x80..0xBF). -/
def utf8Cont (b : Nat) : Bool := 0x80 ≤ b && b ≤ 0xBF

/-- Model of CPython `bytes.decode("utf-8", errors="ignore")`: decode valid
UTF-8 sequences (rejecting overlong encodings and surrogates) and drop
invalid bytes instead of failing. The fuel argument only bounds the
recursion; every step consumes at least one byte, so fuel equal to the list
length (as supplied by `utf8DecodeIgnore`) never runs out. -/
def utf8DecodeIgnoreAux : Nat → List Nat → List Char
  | 0, _ => []
  | _ + 1, [] => []
  | fuel + 1, b :: rest =>
    if b < 0x80 then
      Char.ofNat b :: utf8DecodeIgnoreAux fuel rest
    else if 0xC2 ≤ b ∧ b ≤ 0xDF then
      match rest with
      | [] => []
      | b2 :: rest2 =>
        if utf8Cont b2 then
          Char.ofNat ((b - 0xC0) * 0x40 + (b2 - 0x80)) :: utf8DecodeIgnoreAux fuel rest2
        else utf8DecodeIgnoreAux fuel rest
    else if 0xE0 ≤ b ∧ b ≤ 0xEF then
      match rest with
      | b2 :: b3 :: rest3 =>
        if (utf8Cont b2 && utf8Cont b3)
            && (b ≠ 0xE0 || 0xA0 ≤ b2) && (b ≠ 0xED || b2 ≤ 0x9F) then
          Char.ofNat ((b - 0xE0) * 0x1000 + (b2 - 0x80) * 0x40 + (b3 - 0x80))
            :: utf8DecodeIgnoreAux fuel rest3
        else utf8DecodeIgnoreAux fuel rest
      | _ => utf8DecodeIgnoreAux fuel rest
    else if 0xF0 ≤ b ∧ b ≤ 0xF4 then
      match rest with
      | b2 :: b3 :: b4 :: rest4 =>
        if (utf8Cont b2 && utf8Cont b3 && utf8Cont b4)
            && (b ≠ 0xF0 || 0x90 ≤ b2) && (b ≠ 0xF4 || b2 ≤ 0x8F) then
          Char.ofNat ((b - 0xF0) * 0x40000 + (b2 - 0x80) * 0x1000
              + (b3 - 0x80) * 0x40 + (b4 - 0x80))
            :: utf8DecodeIgnoreAux fuel rest4
        else utf8DecodeIgnoreAux fuel rest
      | _ => utf8DecodeIgnoreAux fuel rest
    else utf8DecodeIgnoreAux fuel rest

/-- The call `file_bytes.decode("utf-8", errors="ignore")` as a String. -/
def utf8DecodeIgnore (file_bytes : List Nat) : String :=
  String.mk (utf8DecodeIgnoreAux file_bytes.length file_bytes)

/-- The `mime_map` of parse_uploaded_file.py `_normalize_kind` (note: it maps
`application/msword` to `docx`, unlike backend.py which maps it to `doc`). -/
def mimeMap : List (String × String) :=
  [("application/pdf", "pdf"),
   ("application/vnd.openxmlformats-officedocument.wordprocessingml.document", "docx"),
   ("application/msword", "docx"),
   ("text/plain", "txt"),
   ("image/jpeg", "jpg"),
   ("image/jpg", "jpg"),
   ("image/png", "png")]

/-- parse_uploaded_file.py `_normalize_kind`. -/
def normalize_kind (file_type : String) : String :=
  if file_type = "" then "unknown"
  else
    let ft := pyStrip (pyLower file_type)
    if ft.data.contains '/' then (mimeMap.lookup ft).getD "unknown"
    else
      let ft2 := if pyStartsWith ft "." then ft.drop 1 else ft
      if ["pdf", "docx", "txt", "jpg", "jpeg", "png"].contains ft2 then
        if ft2 = "jpeg" then "jpg" else ft2
      else "unknown"

/-- The distinguished error of parse_uploaded_file.py `_extract_pdf` for a PDF
with no embedded text layer. -/
def noPdfTextMsg : String :=
  "No extractable text found in PDF (likely a scanned PDF without OCR)."

/-- parse_uploaded_file.py `_extract_pdf`: join the truthy page texts with
newlines and strip; raise the distinguished `ValueError` when empty. -/
def extract_pdf (env : Env) (file_bytes : List Nat) : Except String String :=
  match env.pdfPages file_bytes with
  | .error e => .error e
  | .ok pages =>
    let parts := pages.filterMap fun p =>
      match p with
      | some t => if t = "" then none else some t
      | none => none
    let text := pyStrip (String.intercalate "\n" parts)
    if text = "" then .error noPdfTextMsg else .ok text

/-- parse_uploaded_file.py `_extract_docx`: join paragraph texts, stripped. -/
def extract_docx (env : Env) (file_bytes : List Nat) : Except String String :=
  match env.docxParas file_bytes with
  | .error e => .error e
  | .ok ps => .ok (pyStrip (String.intercalate "\n" ps))

/-- parse_uploaded_file.py `_extract_image`: OCR output, stripped. The
`UnidentifiedImageError` branch (re-raised as a `ValueError`) is folded into
the oracle error message. -/
def extract_image (env : Env) (file_bytes : List Nat) : Except String String :=
  match env.ocr file_bytes with
  | .error e => .error e
  | .ok s => .ok (pyStrip s)

/-- parse_uploaded_file.py `_extract_txt`: UTF-8 decode, ignoring errors, stripped. -/
def extract_txt (file_bytes : List Nat) : String :=
  pyStrip (utf8DecodeIgnore file_bytes)

/-- parse_uploaded_file.py `parse_uploaded_file`: empty-payload check,
normalize the kind, dispatch; `.error` models a raised `ValueError`. -/
def parse_uploaded_file (env : Env) (file_bytes : List Nat) (file_type : String) :
    Except String String :=
  if file_bytes = [] then .error "Empty file provided."
  else
    let kind := normalize_kind file_type
    if kind = "pdf" then extract_pdf env file_bytes
    else if kind = "docx" then extract_docx env file_bytes
    else if kind = "jpg" ∨ kind = "png" then extract_image env file_bytes
    else if kind = "txt" then .ok (extract_txt file_bytes)
    else .error ("Unsupported file type for extraction: " ++ file_type)

/-- The input truncation of backend.py `_generate_analysis`: SOP/CV/motivation
letter get 4000 characters, others 2000; over-budget text is cut, right-stripped
and suffixed with a visible ellipsis marker. -/
def trimText (text : String) (doc_type : String) : String :=
  let max_chars : Nat :=
    if doc_type = "sop" ∨ doc_type = "cv" ∨ doc_type = "motivation letter" then 4000 else 2000
  if text.length > max_chars then pyRStrip (text.take max_chars) ++ "..." else text

/-- The `purpose_hint` computation of backend.py `_generate_analysis`. -/
def purposeHint (purpose_norm : String) : String :=
  if purpose_norm = "" then ""
  else if pyStartsWith (pyLower purpose_norm) "masters" then
    "Target: Master\x27s admission. Emphasize clarity of goals, relevant coursework/projects, impact, and fit with target program; avoid generic statements."
  else if pyStartsWith (pyLower purpose_norm) "phd" then
    "Target: PhD admission. Prioritize research readiness, problem statements, methodology, publications, alignment with advisor/lab, and long-term research vision."
  else if pyStartsWith (pyLower purpose_norm) "job" then
    "Target: Job application. Emphasize quantified achievements, skills relevant to the role, ATS-friendly phrasing, and clear impact aligned to the job description."
  else if pyStartsWith (pyLower purpose_norm) "email" then
    "Target: Email to professor. Keep it brief and respectful; show genuine alignment with their research, mention 1–2 relevant works, and ask a specific question or next step."
  else
    "Target: " ++ purpose_norm ++ ". Keep tone and structure appropriate to this purpose."

/-- The `system_msg` literal of backend.py `_generate_analysis`. -/
def systemMsg : String :=
  "You are a precise, purpose-aware document reviewer. Always return STRICT JSON with keys: feedback (string), enhanced_version (string), issues (array of objects with keys excerpt, issue, suggested_fix). Do NOT include markdown, backticks, or commentary outside JSON. Your job: 1) Give concise, actionable feedback tailored to the stated purpose. 2) Produce a professionally rewritten version (keep content truthful; do not fabricate credentials). 3) Identify specific problems as an array of issues, each with a short excerpt (from the user\x27s text), the issue, and a suggested fix."

/-- The structured-review request assembled by backend.py `_generate_analysis`
(system message plus the `user_payload` dict fields). -/
def llmRequest (trimmed doc_type purpose_norm extra : String) : LlmReq :=
  { system := systemMsg
    document_type := doc_type
    purpose := purpose_norm
    extra_context := extra
    text := trimmed
    instructions :=
      [purposeHint purpose_norm,
       "Make feedback concise and actionable (3–8 bullet points).",
       "Enhanced version must read naturally and reflect the user\x27s content; do not invent facts.",
       "Issues array: 3–10 items with short excerpt, issue, and suggested_fix."] }

/-- One normalized issue dict built by the loop in backend.py
`_generate_analysis` (each field truncated to 400 characters). -/
structure NormIssue where
  excerpt : PyVal
  issue : PyVal
  suggested_fix : PyVal

/-- The result dict shape shared by `_generate_analysis` and
`analyze_document` in backend.py. `text` and `error` are always Python
strings in the source; `feedback` and `enhanced_version` come from untrusted
JSON, so they stay `PyVal`. -/
structure AnalysisDict where
  text : String
  feedback : PyVal
  enhanced_version : PyVal
  issues : List NormIssue
  error : String

/-- One iteration of the issue-normalization loop of `_generate_analysis`:
`(it or \x7b\x7d).get(key, "")[:400]` for the three keys; `.error` models a
raised exception (e.g. `.get` on a non-dict or slicing a non-sliceable). -/
def normalizeIssue (it : PyVal) : Except String NormIssue :=
  let it2 := if pyFalsy it then PyVal.pdict [] else it
  match dictGet it2 "excerpt" (.pstr "") with
  | .error e => .error e
  | .ok v1 =>
    match pySlice 400 v1 with
    | .error e => .error e
    | .ok e1 =>
      match dictGet it2 "issue" (.pstr "") with
      | .error e => .error e
      | .ok v2 =>
        match pySlice 400 v2 with
        | .error e => .error e
        | .ok e2 =>
          match dictGet it2 "suggested_fix" (.pstr "") with
          | .error e => .error e
          | .ok v3 =>
            match pySlice 400 v3 with
            | .error e => .error e
            | .ok e3 => .ok { excerpt := e1, issue := e2, suggested_fix := e3 }

/-- The whole issue-normalization loop of `_generate_analysis`. -/
def normalizeIssues : List PyVal → Except String (List NormIssue)
  | [] => .ok []
  | it :: rest =>
    match normalizeIssue it with
    | .error e => .error e
    | .ok n =>
      match normalizeIssues rest with
      | .error e => .error e
      | .ok ns => .ok (n :: ns)

/-- The `try` body of backend.py `_generate_analysis`: call the generation
collaborator, parse its output (substituting the degraded dict on parse
failure), normalize the issues, and return the result dict with `error = ""`.
`.error` models an exception reaching the trailing `except`. -/
def generate_analysis_try (env : Env) (text doc_type : String)
    (purpose extra_context : Option String) : Except String AnalysisDict :=
  let trimmed := trimText text doc_type
  let purpose_norm := pyStrip (purpose.getD "")
  let extra := pyStrip (extra_context.getD "")
  match env.llm (llmRequest trimmed doc_type purpose_norm extra) with
  | .error e => .error e
  | .ok contentOpt =>
    let raw := pyOrStr contentOpt "\x7b\x7d"
    let data :=
      match env.jsonParse raw with
      | some v => v
      | none =>
        PyVal.pdict
          [("feedback", .pstr "Could not parse structured output."),
           ("enhanced_version", .pstr ""),
           ("issues", .plist [])]
    match dictGet data "issues" (.plist []) with
    | .error e => .error e
    | .ok issuesV =>
      let issues := match issuesV with | .plist l => l | _ => []
      match normalizeIssues issues with
      | .error e => .error e
      | .ok normalized =>
        match dictGet data "feedback" (.pstr "") with
        | .error e => .error e
        | .ok fb =>
          match dictGet data "enhanced_version" (.pstr "") with
          | .error e => .error e
          | .ok ev =>
            .ok { text := trimmed, feedback := fb, enhanced_version := ev,
                  issues := normalized, error := "" }

/-- backend.py `_generate_analysis`: the `try` body, with the trailing
`except` returning the degraded dict that keeps the original `text`, sets
`feedback` to "Analysis failed." and carries `str(e)` in `error`. -/
def generate_analysis (env : Env) (text doc_type : String)
    (purpose extra_context : Option String) : AnalysisDict :=
  match generate_analysis_try env text doc_type purpose extra_context with
  | .ok r => r
  | .error e =>
    { text := text, feedback := .pstr "Analysis failed.",
      enhanced_version := .pstr "", issues := [], error := e }

/-- The uniform failure dict literal of backend.py `analyze_document`:
empty text/feedback/enhanced_version, empty issues, and the given error. -/
def uniformFail (msg : String) : AnalysisDict :=
  { text := "", feedback := .pstr "", enhanced_version := .pstr "",
    issues := [], error := msg }

/-- Outcome of the extraction dispatch inside backend.py `analyze_document`:
either extracted text, an early-returned result dict (the unreachable
unsupported-type branch), or a raised exception. -/
inductive StepRes where
  | text : String → StepRes
  | ret : AnalysisDict → StepRes
  | exc : String → StepRes

/-- The extraction dispatch of backend.py `analyze_document`: pdf and images
go through the shared `parse_uploaded_file` helper, docx joins the paragraph
texts natively (without stripping), txt decodes UTF-8 ignoring errors
(without stripping), anything else returns an unsupported-type failure. -/
def extractStep (env : Env) (file_type : String) (file_bytes : List Nat) : StepRes :=
  if file_type = "pdf" then
    match parse_uploaded_file env file_bytes "application/pdf" with
    | .ok t => .text t
    | .error e => .exc e
  else if file_type = "jpg" ∨ file_type = "png" then
    match parse_uploaded_file env file_bytes ("image/" ++ file_type) with
    | .ok t => .text t
    | .error e => .exc e
  else if file_type = "docx" then
    match env.docxParas file_bytes with
    | .ok ps => .text (String.intercalate "\n" ps)
    | .error e => .exc e
  else if file_type = "txt" then .text (utf8DecodeIgnore file_bytes)
  else .ret (uniformFail ("❌ Unsupported file type: " ++ file_type))

/-- backend.py `analyze_document`: validate, normalize the category, detect
the type, check support, extract, reject empty text, review, and wrap any
exception from the body into the uniform failure with
"❌ Analysis failed: ...". -/
def analyze_document (env : Env) (file_bytes : List Nat) (filename : String)
    (doc_type : String) (purpose extra_context : Option String) : AnalysisDict :=
  if !validate_file file_bytes then uniformFail "❌ Invalid file (empty or >200MB)"
  else
    let dt := normDocType doc_type
    let file_type := detect_file_type env file_bytes filename
    if !is_supported file_type dt then
      uniformFail ("❌ Unsupported " ++ file_type ++ " format for " ++ dt ++ " analysis")
    else
      match extractStep env file_type file_bytes with
      | .ret r => r
      | .exc e => uniformFail ("❌ Analysis failed: " ++ e)
      | .text t =>
        if t = "" ∨ pyStrip t = "" then uniformFail "❌ Extracted text is empty"
        else
          let analysis := generate_analysis env t dt purpose extra_context
          { text := analysis.text, feedback := analysis.feedback,
            enhanced_version := analysis.enhanced_version,
            issues := analysis.issues, error := analysis.error }

/-- One scholarship-feed entry as exposed by feedparser to backend.py
`_fetch_scholarships` (`summary` is `none` when the entry lacks the key). -/
structure FeedEntry where
  title : String
  link : String
  summary : Option String

/-- A chat message dict as passed to the OpenAI chat call. -/
structure ChatMsg where
  role : String
  content : String

/-- Oracle environment for backend.py `generate_response`: the md5 hex digest
used as cache key, feedparser (`.error` models any exception while parsing a
feed or reading its entries), and the free-form chat call (`.ok` carries
`choices[0].message.content`, possibly Python `None`; `.error` models a
raised exception, including network failure or an empty choices list). -/
structure ChatEnv where
  md5 : String → String
  feedParse : String → Except String (List FeedEntry)
  chat : List ChatMsg → Except String (Option String)

/-- The `scholarship_feeds` list from backend.py `_init_services`. -/
def scholarshipFeeds : List String :=
  ["https://scholarshipscorner.website/feed/",
   "https://scholarshipunion.com/feed/"]

/-- A scholarship dict built by backend.py `_fetch_scholarships`. -/
structure Sch where
  title : String
  link : String
  summary : String

/-- backend.py `_fetch_scholarships`: for each feed take the first five
entries; a feed whose parse (or entry access) raises is logged and skipped,
so the function itself never raises. -/
def fetch_scholarships (env : ChatEnv) : List Sch :=
  (scholarshipFeeds.map fun url =>
    match env.feedParse url with
    | .ok entries =>
      (entries.take 5).map fun e =>
        { title := e.title, link := e.link,
          summary := e.summary.getD "No details available" }
    | .error _ => []).flatten

/-- The `enhanced_prompt` f-string of backend.py `generate_response`. -/
def enhancedPrompt (env : ChatEnv) (prompt : String) : String :=
  let scholarship_text :=
    String.intercalate "\n"
      ((fetch_scholarships env).map fun item =>
        "- " ++ item.title ++ " (" ++ item.link ++ ")")
  "\nYou are a scholarship assistant. Here is a list of current scholarships fetched live:\n\n"
    ++ scholarship_text
    ++ "\n\nNow, answer this user query using the above info where possible:\n"
    ++ prompt ++ "\n"

/-- The expression `context or [dict(role="user", content=enhanced_prompt)]` from backend.py
`generate_response` (Python `or`: `None` and the empty list are falsy). -/
def grMessages (env : ChatEnv) (prompt : String) (context : Option (List ChatMsg)) :
    List ChatMsg :=
  match context with
  | some l => if l.isEmpty then [{ role := "user", content := enhancedPrompt env prompt }] else l
  | none => [{ role := "user", content := enhancedPrompt env prompt }]

/-- The fixed fallback string of backend.py `generate_response`. -/
def grFallback : String :=
  "Sorry, I encountered an error processing your request. Please try again."

/-- backend.py `generate_response`: return a cached value when the md5 key
hits (the cache stores previous results, hence `Option String` values);
otherwise build the scholarship-enhanced prompt, call the chat collaborator,
and convert any exception in the body into the fixed fallback string.
Metric/cache writes are side effects with no bearing on the returned value. -/
def generate_response (env : ChatEnv) (cache : String → Option (Option String))
    (prompt : String) (context : Option (List ChatMsg)) : Option String :=
  match cache (env.md5 prompt) with
  | some v => v
  | none =>
    match env.chat (grMessages env prompt context) with
    | .ok content => content
    | .error _ => some grFallback

/-- Modelled from the spec: the repository contains no profile-merge
implementation under src/ (backend.py only declares the profile shape in
`_init_user_profile` and reads it); §3/§4.5 of the spec define the running
profile of `extract_and_merge` with independently optional fields
degree, field_of_study, country, gpa and budget. -/
structure UserProfile where
  degree : Option String
  field_of_study : Option String
  country : Option String
  gpa : Option ℚ
  budget : Option ℚ
deriving DecidableEq

/-- Modelled from the spec: the field set pulled out of one user message by
the ProfileExtractor (§4.5); a `none` field was not found this turn. -/
structure ExtractedFields where
  degree : Option String
  field_of_study : Option String
  country : Option String
  gpa : Option ℚ
  budget : Option ℚ
deriving DecidableEq

/-- Modelled from the spec (§3): one field of the non-destructive merge —
"a merge operation sets a field only when the incoming extraction supplies a
non-null value for it; existing non-null values are never overwritten with
null, but are overwritten by a newly supplied non-null value". -/
def mergeField {α : Type} (old incoming : Option α) : Option α :=
  match incoming with
  | some v => some v
  | none => old

/-- Modelled from the spec (§3/§4.5): the field-by-field non-destructive
merge of an extracted field set into the running profile. -/
def mergeProfile (p : UserProfile) (e : ExtractedFields) : UserProfile :=
  { degree := mergeField p.degree e.degree
    field_of_study := mergeField p.field_of_study e.field_of_study
    country := mergeField p.country e.country
    gpa := mergeField p.gpa e.gpa
    budget := mergeField p.budget e.budget }

/-- An environment whose every oracle fails; used as the base for the
concrete environments of the witnesses and counterexamples. -/
def baseEnv : Env :=
  { magic := fun _ => .error "unavailable"
    pdfPages := fun _ => .error "unavailable"
    docxParas := fun _ => .error "unavailable"
    ocr := fun _ => .error "unavailable"
    llm := fun _ => .error "unavailable"
    jsonParse := fun _ => none }

theorem mergeField_idem {α : Type} (old i : Option α) :
    mergeField (mergeField old i) i = mergeField old i := by
  cases i <;> rfl

theorem mergeField_agree {α : Type} (old i : Option α) (h : i = none ∨ i = old) :
    mergeField old i = old := by
  rcases h with h1 | h1
  · subst h1; rfl
  · rw [h1]; cases old <;> rfl

/-- C3: profile merging is idempotent and non-destructive — an incoming
null/missing field never erases an existing value, an incoming non-null
value overwrites it (last-write-wins per field), and re-merging a field set
whose supplied values already equal the profile's leaves it unchanged. -/
theorem mergeProfile_policy (p : UserProfile) (e : ExtractedFields) :
    (e.degree = none → (mergeProfile p e).degree = p.degree) ∧
    (e.field_of_study = none → (mergeProfile p e).field_of_study = p.field_of_study) ∧
    (e.country = none → (mergeProfile p e).country = p.country) ∧
    (e.gpa = none → (mergeProfile p e).gpa = p.gpa) ∧
    (e.budget = none → (mergeProfile p e).budget = p.budget) ∧
    (∀ v, e.degree = some v → (mergeProfile p e).degree = some v) ∧
    (∀ v, e.field_of_study = some v → (mergeProfile p e).field_of_study = some v) ∧
    (∀ v, e.country = some v → (mergeProfile p e).country = some v) ∧
    (∀ v, e.gpa = some v → (mergeProfile p e).gpa = some v) ∧
    (∀ v, e.budget = some v → (mergeProfile p e).budget = some v) ∧
    mergeProfile (mergeProfile p e) e = mergeProfile p e ∧
    ((e.degree = none ∨ e.degree = p.degree) →
     (e.field_of_study = none ∨ e.field_of_study = p.field_of_study) →
     (e.country = none ∨ e.country = p.country) →
     (e.gpa = none ∨ e.gpa = p.gpa) →
     (e.budget = none ∨ e.budget = p.budget) →
     mergeProfile p e = p) := by
  obtain ⟨d, f, c, g, bu⟩ := p
  obtain ⟨ed, ef, ec, eg, eb⟩ := e
  refine ⟨fun h => ?_, fun h => ?_, fun h => ?_, fun h => ?_, fun h => ?_,
    fun v h => ?_, fun v h => ?_, fun v h => ?_, fun v h => ?_, fun v h => ?_,
    ?_, fun h1 h2 h3 h4 h5 => ?_⟩
  all_goals first
    | (subst h; rfl)
    | (simp only [mergeProfile, UserProfile.mk.injEq]
       exact ⟨mergeField_idem .., mergeField_idem .., mergeField_idem ..,
         mergeField_idem .., mergeField_idem ..⟩)
    | (simp only [mergeProfile, UserProfile.mk.injEq]
       exact ⟨mergeField_agree _ _ h1, mergeField_agree _ _ h2, mergeField_agree _ _ h3,
         mergeField_agree _ _ h4, mergeField_agree _ _ h5⟩)

/-- A profile that already knows the degree and the country (spec §8 example). -/
def profileUK : UserProfile :=
  { degree := some "Master\x27s", field_of_study := none, country := some "UK",
    gpa := none, budget := none }

/-- An extraction that re-supplies the same degree and nothing else. -/
def extractDegreeOnly : ExtractedFields :=
  { degree := some "Master\x27s", field_of_study := none, country := none,
    gpa := none, budget := none }

/-- Witness for C3: re-merging the already-known degree leaves the profile
(including its country) unchanged. -/
theorem mergeProfile_policy_witness : mergeProfile profileUK extractDegreeOnly = profileUK :=
  (mergeProfile_policy profileUK extractDegreeOnly).2.2.2.2.2.2.2.2.2.2.2
    (Or.inr rfl) (Or.inl rfl) (Or.inl rfl) (Or.inl rfl) (Or.inl rfl)

/-- C2: evaluation of `_is_supported` over the §4.2 matrix. The `cv`, `sop`
and `transcript` rows match the matrix, but every `motivation letter` pair is
rejected (the key is absent from `supported_types`), contradicting the claim;
unknown categories and unknown formats are rejected. -/
theorem is_supported_matrix_eval :
    is_supported "pdf" "motivation letter" = false ∧
    is_supported "docx" "motivation letter" = false ∧
    is_supported "jpg" "motivation letter" = false ∧
    is_supported "png" "motivation letter" = false ∧
    is_supported "pdf" "cv" = true ∧ is_supported "docx" "cv" = true ∧
    is_supported "jpg" "cv" = false ∧ is_supported "png" "cv" = false ∧
    is_supported "txt" "cv" = false ∧
    is_supported "pdf" "sop" = true ∧ is_supported "docx" "sop" = true ∧
    is_supported "jpg" "sop" = true ∧ is_supported "png" "sop" = true ∧
    is_supported "txt" "sop" = false ∧
    is_supported "pdf" "transcript" = true ∧ is_supported "docx" "transcript" = false ∧
    is_supported "jpg" "transcript" = true ∧ is_supported "png" "transcript" = true ∧
    is_supported "pdf" "loan application" = false ∧
    is_supported "exe" "cv" = false ∧ is_supported "unknown" "sop" = false := by
  decide

/-- C5: an empty payload, or one above the 200 MiB ceiling, makes
`analyze_document` return the uniform failure shape, for every environment —
so no detection, extraction or review oracle is ever consulted. -/
theorem analyze_document_rejects_invalid (env : Env) (file_bytes : List Nat)
    (filename doc_type : String) (purpose extra_context : Option String)
    (h : file_bytes = [] ∨ file_bytes.length > 200 * 1024 * 1024) :
    analyze_document env file_bytes filename doc_type purpose extra_context =
      uniformFail "❌ Invalid file (empty or >200MB)" := by
  have hv : validate_file file_bytes = false := by
    rcases h with rfl | h
    · rfl
    · have hne : file_bytes.isEmpty = false := by
        cases file_bytes
        · simp at h
        · rfl
      unfold validate_file
      rw [hne]
      rw [if_neg (by simp)]
      rw [if_pos h]
  unfold analyze_document
  rw [hv]
  rfl

/-- Witness for C5: the empty payload is rejected with the uniform failure. -/
theorem analyze_document_rejects_invalid_witness :
    analyze_document baseEnv [] "cv.pdf" "cv" none none =
      uniformFail "❌ Invalid file (empty or >200MB)" :=
  analyze_document_rejects_invalid baseEnv [] "cv.pdf" "cv" none none (Or.inl rfl)

/-- C8: a PDF whose pages all yield no text (no embedded text layer) makes
`_extract_pdf` fail with the distinguished no-extractable-text error, and a
successful extraction never returns the empty string. -/
theorem extract_pdf_no_text_layer (env : Env) (file_bytes : List Nat)
    (pages : List (Option String))
    (hok : env.pdfPages file_bytes = .ok pages)
    (hempty : ∀ p ∈ pages, p = none ∨ p = some "") :
    extract_pdf env file_bytes = .error noPdfTextMsg ∧
    (∀ (env2 : Env) (b2 : List Nat) (t : String),
        extract_pdf env2 b2 = .ok t → t ≠ "") := by
  constructor
  · have hnil : pages.filterMap (fun p =>
        match p with
        | some t => if t = "" then none else some t
        | none => none) = [] := by
      rw [List.filterMap_eq_nil_iff]
      intro a ha
      rcases hempty a ha with rfl | rfl <;> rfl
    simp only [extract_pdf, hok]
    rw [hnil]
    rfl
  · intro env2 b2 t hok2
    simp only [extract_pdf] at hok2
    cases h2 : env2.pdfPages b2 with
    | error e => rw [h2] at hok2; exact Except.noConfusion hok2
    | ok pages2 =>
      simp only [h2] at hok2
      split at hok2
      · exact absurd hok2 (by simp)
      · rename_i hne
        injection hok2 with h3
        exact h3 ▸ hne

/-- The environment of the C8 witness: a two-page PDF with no text layer. -/
def envScannedPdf : Env := { baseEnv with pdfPages := fun _ => .ok [none, some ""] }

/-- Witness for C8: the scanned two-page PDF yields the distinguished error. -/
theorem extract_pdf_no_text_layer_witness :
    extract_pdf envScannedPdf [1] = .error noPdfTextMsg :=
  (extract_pdf_no_text_layer envScannedPdf [1] [none, some ""] rfl (by decide)).1

/-- C4: when the byte content is sniffed as a PNG, a file named `resume.pdf`
with category `cv` is detected as `png` (content over filename) and rejected
by `analyze_document` with the error naming the detected type. -/
theorem analyze_document_png_spoof (env : Env) (file_bytes : List Nat)
    (hmagic : env.magic file_bytes = .ok "image/png")
    (hval : validate_file file_bytes = true) :
    detect_file_type env file_bytes "resume.pdf" = "png" ∧
    analyze_document env file_bytes "resume.pdf" "cv" none none =
      uniformFail "❌ Unsupported png format for cv analysis" := by
  constructor
  · unfold detect_file_type
    rw [hmagic]
    rfl
  · unfold analyze_document detect_file_type
    rw [hval, hmagic]
    rfl

/-- The environment of the C4 witness: content sniffing reports a PNG. -/
def envPngSniff : Env := { baseEnv with magic := fun _ => .ok "image/png" }

/-- The eight PNG signature bytes. -/
def pngBytes : List Nat := [137, 80, 78, 71, 13, 10, 26, 10]

/-- Witness for C4: the PNG-bodied `resume.pdf` with category `cv` is
detected as png and rejected with the error naming png. -/
theorem analyze_document_png_spoof_witness :
    detect_file_type envPngSniff pngBytes "resume.pdf" = "png" ∧
    analyze_document envPngSniff pngBytes "resume.pdf" "cv" none none =
      uniformFail "❌ Unsupported png format for cv analysis" :=
  analyze_document_png_spoof envPngSniff pngBytes rfl (by decide)

/-- C6 (amended): when the collaborator answers with a non-empty string that
does not parse as JSON, `_generate_analysis` returns the degraded result —
explanatory feedback, empty enhanced_version, empty issues — with `error`
left empty and without raising; but an empty (falsy) reply is replaced by
the literal object text before parsing, so it parses and yields empty
feedback (still with empty error and empty issues). -/
theorem generate_analysis_malformed_json (env : Env) (text doc_type : String)
    (purpose extra_context : Option String) (raw : String) :
    (raw ≠ "" →
     env.llm (llmRequest (trimText text doc_type) doc_type
        (pyStrip (purpose.getD "")) (pyStrip (extra_context.getD ""))) = .ok (some raw) →
     env.jsonParse raw = none →
     generate_analysis env text doc_type purpose extra_context =
       { text := trimText text doc_type,
         feedback := .pstr "Could not parse structured output.",
         enhanced_version := .pstr "", issues := [], error := "" }) ∧
    (env.llm (llmRequest (trimText text doc_type) doc_type
        (pyStrip (purpose.getD "")) (pyStrip (extra_context.getD ""))) = .ok (some "") →
     env.jsonParse "\x7b\x7d" = some (.pdict []) →
     generate_analysis env text doc_type purpose extra_context =
       { text := trimText text doc_type, feedback := .pstr "",
         enhanced_version := .pstr "", issues := [], error := "" }) := by
  constructor
  · intro hraw hllm hparse
    simp only [generate_analysis, generate_analysis_try, hllm, pyOrStr, if_neg hraw, hparse]
    rfl
  · intro hllm hjson
    simp only [generate_analysis, generate_analysis_try, hllm]
    rw [show pyOrStr (some "") "\x7b\x7d" = "\x7b\x7d" from rfl, hjson]
    rfl

/-- The environment of the C6 witness: the collaborator answers garbage and
the JSON parse fails. -/
def envBadJson : Env := { baseEnv with llm := fun _ => .ok (some "not json") }

/-- Witness for C6 (amended): a short sop review with non-empty unparseable
collaborator output yields the degraded result with empty error. -/
theorem generate_analysis_malformed_json_witness :
    generate_analysis envBadJson "hello" "sop" none none =
      { text := "hello", feedback := .pstr "Could not parse structured output.",
        enhanced_version := .pstr "", issues := [], error := "" } :=
  (generate_analysis_malformed_json envBadJson "hello" "sop" none none "not json").1
    (by decide) rfl rfl

/-- The environment of the C6 counterexample: the collaborator replies with
the empty string, and the JSON parser behaves as `json.loads` does on the
two relevant inputs — it fails on the empty string and maps the literal
object text to the empty dict. -/
def envEmptyReply : Env :=
  { baseEnv with
      llm := fun _ => .ok (some ""),
      jsonParse := fun s => if s = "\x7b\x7d" then some (.pdict []) else none }

/-- Counterexample for C6 as claimed: the collaborator returns the empty
string, which does not parse as JSON, yet feedback is the empty string and
not an explanatory message — Python replaces a falsy reply by the literal
object text before parsing, and the empty object yields empty feedback. -/
theorem generate_analysis_empty_reply_counterexample :
    envEmptyReply.llm (llmRequest "hello" "sop" "" "") = .ok (some "") ∧
    envEmptyReply.jsonParse "" = none ∧
    (generate_analysis envEmptyReply "hello" "sop" none none).error = "" ∧
    (generate_analysis envEmptyReply "hello" "sop" none none).feedback = .pstr "" ∧
    (generate_analysis envEmptyReply "hello" "sop" none none).feedback ≠
      .pstr "Could not parse structured output." := by
  refine ⟨rfl, rfl, rfl, rfl, ?_⟩
  intro h
  injection h with h2
  exact absurd h2 (by decide)

/-- C7 (amended): detection never raises (it is a total function of the
oracle outcome); a recognized signature maps into the fixed set
pdf/docx/doc/jpg/png/txt (note: `doc` is produced for the msword signature);
an unrecognized signature — and likewise a raised detection error — falls
back to the lowercased filename extension verbatim (no jpeg normalization,
no restriction to the fixed tag set), with `unknown` when the extension is
empty. -/
theorem detect_file_type_fallback (env : Env) (file_bytes : List Nat) (filename : String) :
    (∀ m, env.magic file_bytes = .ok m → typeMap.lookup m = none →
        detect_file_type env file_bytes filename =
          (if extLower filename = "" then "unknown" else extLower filename)) ∧
    (∀ e, env.magic file_bytes = .error e →
        detect_file_type env file_bytes filename =
          (if extLower filename = "" then "unknown" else extLower filename)) ∧
    (∀ m t, env.magic file_bytes = .ok m → typeMap.lookup m = some t →
        detect_file_type env file_bytes filename = t ∧
        t ∈ ["pdf", "docx", "doc", "jpg", "png", "txt"]) := by
  refine ⟨fun m hm hl => ?_, fun e he => ?_, fun m t hm hl => ?_⟩
  · unfold detect_file_type
    rw [hm]
    simp [hl]
  · unfold detect_file_type
    rw [he]
  · constructor
    · unfold detect_file_type
      rw [hm]
      simp [hl]
    · simp only [typeMap, List.lookup] at hl
      repeat' split at hl
      all_goals first
        | exact Option.noConfusion hl
        | (injection hl with h4; rw [← h4]; decide)

/-- The environment of the C7 witness and counterexample: content sniffing
reports a MIME type outside `type_map`. -/
def envOctet : Env := { baseEnv with magic := fun _ => .ok "application/octet-stream" }

/-- Witness for C7: with an unrecognized signature, a `.JPEG` filename falls
back to its lowercased extension. -/
theorem detect_file_type_fallback_witness :
    detect_file_type envOctet [0] "a.JPEG" =
      (if extLower "a.JPEG" = "" then "unknown" else extLower "a.JPEG") :=
  (detect_file_type_fallback envOctet [0] "a.JPEG").1 "application/octet-stream" rfl rfl

/-- Counterexample for C7 as claimed: with an unrecognized signature the file
`scan.jpeg` is tagged `jpeg` — not normalized to `jpg` and outside the fixed
tag set pdf/docx/txt/jpg/png the claim allows. -/
theorem detect_file_type_jpeg_counterexample :
    detect_file_type envOctet [0] "scan.jpeg" = "jpeg" ∧
    detect_file_type envOctet [0] "scan.jpeg" ∉ (["pdf", "docx", "txt", "jpg", "png"] : List String) := by
  exact ⟨rfl, by decide⟩

theorem generate_analysis_try_ok_error (env : Env) (text doc_type : String)
    (purpose extra_context : Option String) (r : AnalysisDict)
    (h : generate_analysis_try env text doc_type purpose extra_context = .ok r) :
    r.error = "" := by
  simp only [generate_analysis_try] at h
  repeat' split at h
  all_goals first
    | exact Except.noConfusion h
    | (injection h with h1; rw [← h1])

theorem extractStep_ret (env : Env) (file_type : String) (file_bytes : List Nat)
    (r : AnalysisDict) (h : extractStep env file_type file_bytes = .ret r) :
    r = uniformFail ("❌ Unsupported file type: " ++ file_type) := by
  simp only [extractStep] at h
  repeat' split at h
  all_goals first
    | exact StepRes.noConfusion h
    | (injection h with h1; rw [← h1])

/-- C1 (amended): every `analyze_document` result either has an empty error,
or has empty enhanced_version and empty issues together with either
all-empty text and feedback (failures before the review stage) or the
extracted text preserved next to the fixed feedback "Analysis failed."
(an exception inside the review stage) — so a review-stage failure is a
partial result carrying non-empty content next to a non-empty error. -/
theorem analyze_document_error_shape (env : Env) (file_bytes : List Nat)
    (filename doc_type : String) (purpose extra_context : Option String) :
    (analyze_document env file_bytes filename doc_type purpose extra_context).error = "" ∨
    ((analyze_document env file_bytes filename doc_type purpose extra_context).enhanced_version = .pstr "" ∧
     (analyze_document env file_bytes filename doc_type purpose extra_context).issues = [] ∧
     (((analyze_document env file_bytes filename doc_type purpose extra_context).text = "" ∧
       (analyze_document env file_bytes filename doc_type purpose extra_context).feedback = .pstr "") ∨
      (analyze_document env file_bytes filename doc_type purpose extra_context).feedback =
        .pstr "Analysis failed.")) := by
  simp only [analyze_document]
  split
  · exact Or.inr ⟨rfl, rfl, Or.inl ⟨rfl, rfl⟩⟩
  split
  · exact Or.inr ⟨rfl, rfl, Or.inl ⟨rfl, rfl⟩⟩
  split
  · rename_i r heq
    rw [extractStep_ret _ _ _ _ heq]
    exact Or.inr ⟨rfl, rfl, Or.inl ⟨rfl, rfl⟩⟩
  · exact Or.inr ⟨rfl, rfl, Or.inl ⟨rfl, rfl⟩⟩
  · rename_i t heq
    split
    · exact Or.inr ⟨rfl, rfl, Or.inl ⟨rfl, rfl⟩⟩
    · cases hga : generate_analysis_try env t (normDocType doc_type) purpose extra_context with
      | ok r2 =>
        left
        simp only [generate_analysis, hga]
        exact generate_analysis_try_ok_error env t (normDocType doc_type)
          purpose extra_context r2 hga
      | error e2 =>
        right
        simp only [generate_analysis, hga]
        exact ⟨trivial, trivial, Or.inr trivial⟩

/-- The environment of the C1 counterexample: a text-bearing PDF whose
review call raises (e.g. a network failure of the generation collaborator). -/
def envLlmDown : Env :=
  { baseEnv with magic := fun _ => .ok "application/pdf",
                 pdfPages := fun _ => .ok [some "Hello"] }

/-- The four signature bytes of a PDF ("%PDF"). -/
def pdfBytes : List Nat := [37, 80, 68, 70]

/-- Counterexample for C1 as claimed: when the review call raises, the
result carries a non-empty error together with the non-empty extracted text
and the non-empty feedback "Analysis failed." — a partial success. -/
theorem analyze_document_partial_counterexample :
    (analyze_document envLlmDown pdfBytes "cv.pdf" "cv" none none).error = "unavailable" ∧
    (analyze_document envLlmDown pdfBytes "cv.pdf" "cv" none none).error ≠ "" ∧
    (analyze_document envLlmDown pdfBytes "cv.pdf" "cv" none none).text = "Hello" ∧
    (analyze_document envLlmDown pdfBytes "cv.pdf" "cv" none none).text ≠ "" ∧
    (analyze_document envLlmDown pdfBytes "cv.pdf" "cv" none none).feedback =
      .pstr "Analysis failed." := by
  exact ⟨rfl, by decide, rfl, by decide, rfl⟩

/-- C9 (amended): an extraction result that strips to the empty string makes
`analyze_document` fail with "❌ Extracted text is empty" (never a success),
and the shared pdf/image helpers only ever return stripped text; but the
docx/txt paths of the orchestrator pass the joined/decoded text through
unstripped, so a successful result's text need not be stripped. -/
theorem analyze_document_whitespace (env : Env) (file_bytes : List Nat)
    (filename doc_type : String) (purpose extra_context : Option String) (t : String)
    (hval : validate_file file_bytes = true)
    (hsup : is_supported (detect_file_type env file_bytes filename) (normDocType doc_type) = true)
    (hext : extractStep env (detect_file_type env file_bytes filename) file_bytes = .text t)
    (htrim : pyStrip t = "") :
    analyze_document env file_bytes filename doc_type purpose extra_context =
      uniformFail "❌ Extracted text is empty" ∧
    (∀ (env2 : Env) (b2 : List Nat) (t2 : String),
        extract_pdf env2 b2 = .ok t2 → ∃ s, t2 = pyStrip s) ∧
    (∀ (env2 : Env) (b2 : List Nat) (t2 : String),
        extract_image env2 b2 = .ok t2 → ∃ s, t2 = pyStrip s) := by
  refine ⟨?_, ?_, ?_⟩
  · simp only [analyze_document, hval, hsup, hext, Bool.not_true, Bool.false_eq_true,
      if_false]
    rw [if_pos (Or.inr htrim)]
  · intro env2 b2 t2 h
    simp only [extract_pdf] at h
    cases h2 : env2.pdfPages b2 with
    | error e => rw [h2] at h; exact Except.noConfusion h
    | ok pages2 =>
      simp only [h2] at h
      split at h
      · exact Except.noConfusion h
      · injection h with h3
        exact ⟨_, h3.symm⟩
  · intro env2 b2 t2 h
    simp only [extract_image] at h
    cases h2 : env2.ocr b2 with
    | error e => rw [h2] at h; exact Except.noConfusion h
    | ok s =>
      simp only [h2] at h
      injection h with h3
      exact ⟨s, h3.symm⟩

/-- The docx MIME type string. -/
def docxMime : String :=
  "application/vnd.openxmlformats-officedocument.wordprocessingml.document"

/-- The environment of the C9 witness: a docx whose paragraphs are all
whitespace. -/
def envWsDocx : Env :=
  { baseEnv with magic := fun _ => .ok docxMime,
                 docxParas := fun _ => .ok [" ", ""] }

/-- Witness for C9 (amended): the all-whitespace docx extraction ends in the
"Extracted text is empty" failure. -/
theorem analyze_document_whitespace_witness :
    analyze_document envWsDocx [80, 75] "a.docx" "cv" none none =
      uniformFail "❌ Extracted text is empty" :=
  (analyze_document_whitespace envWsDocx [80, 75] "a.docx" "cv" none none " \n"
    rfl rfl rfl rfl).1

/-- The environment of the C9 counterexample: a docx with a leading-space
paragraph and a collaborator whose JSON reply parses fine. -/
def envDocxOk : Env :=
  { baseEnv with
      magic := fun _ => .ok docxMime,
      docxParas := fun _ => .ok [" hi ", "x"],
      llm := fun _ => .ok (some "j"),
      jsonParse := fun _ => some (.pdict
        [("feedback", .pstr "fb"), ("enhanced_version", .pstr ""),
         ("issues", .plist [])]) }

/-- Counterexample for C9 as claimed: a successful analysis (empty error)
whose returned text " hi \nx" still carries its leading space — the docx
path does not strip. -/
theorem analyze_document_unstripped_counterexample :
    (analyze_document envDocxOk [80, 75] "a.docx" "cv" none none).error = "" ∧
    (analyze_document envDocxOk [80, 75] "a.docx" "cv" none none).text = " hi \nx" ∧
    pyStrip " hi \nx" ≠ " hi \nx" := by
  exact ⟨rfl, rfl, by decide⟩

/-- C10: `generate_response` never propagates an exception — for every
oracle behavior it returns a cache hit, the collaborator's reply, or the
fixed fallback string (first conjunct), and whenever the generation call
raises on a cache miss the fallback string is returned (second conjunct);
scholarship-feed failures are swallowed inside `_fetch_scholarships` and so
never raise out of the body at all. -/
theorem generate_response_never_raises (env : ChatEnv)
    (cache : String → Option (Option String)) (prompt : String)
    (context : Option (List ChatMsg)) (e : String)
    (hmiss : cache (env.md5 prompt) = none)
    (hchat : env.chat (grMessages env prompt context) = .error e) :
    generate_response env cache prompt context = some grFallback ∧
    (∀ (env2 : ChatEnv) (cache2 : String → Option (Option String))
        (p2 : String) (c2 : Option (List ChatMsg)),
      (∃ v, cache2 (env2.md5 p2) = some v ∧ generate_response env2 cache2 p2 c2 = v) ∨
      (∃ c, env2.chat (grMessages env2 p2 c2) = .ok c ∧
        generate_response env2 cache2 p2 c2 = c) ∨
      generate_response env2 cache2 p2 c2 = some grFallback) := by
  constructor
  · unfold generate_response
    rw [hmiss, hchat]
  · intro env2 cache2 p2 c2
    unfold generate_response
    cases hc : cache2 (env2.md5 p2) with
    | some v => exact Or.inl ⟨v, rfl, rfl⟩
    | none =>
      cases hch : env2.chat (grMessages env2 p2 c2) with
      | ok c => exact Or.inr (Or.inl ⟨c, rfl, rfl⟩)
      | error e2 => exact Or.inr (Or.inr rfl)

/-- The environment of the C10 witness: both feeds and the chat call fail. -/
def envChatDown : ChatEnv :=
  { md5 := fun s => s, feedParse := fun _ => .error "down",
    chat := fun _ => .error "net" }

/-- Witness for C10: with a cold cache, failing feeds and a failing chat
call, the fixed fallback string is returned. -/
theorem generate_response_never_raises_witness :
    generate_response envChatDown (fun _ => none) "hi" none = some grFallback :=
  (generate_response_never_raises envChatDown (fun _ => none) "hi" none "net" rfl rfl).1
